import Mathlib

/-!
A shallow embedding of the slider interaction controller from
`packages/form/src/slider/useSliderControls.ts` (react-md), together with the
variant implementation of the same hook found elsewhere in the repository.
Pointer coordinates and slider values are modelled as exact rationals.
-/

namespace Slider

/-- Input modality that currently owns a drag session (`SliderDraggingBy`
without the `null` case, which is modelled by `Option`). -/
inductive Modality
  | mouse
  | touch
deriving DecidableEq, Repr

/-- The bounding-client-rect fields read by the slider code
(`getBoundingClientRect()` results). -/
structure Rect where
  x : Rat
  y : Rat
  left : Rat
  top : Rat
  width : Rat
  height : Rat
deriving DecidableEq, Repr

/-- A pointer event as observed by the `drag` handler.  `isMouse` / `isTouch`
model the `isMouseEvent` / `isTouchEvent` type probes; `clientX` / `clientY`
are the coordinates the handler reads (the event's own coordinates for a mouse
event, the first changed touch's coordinates for a touch event). -/
structure DragEvent where
  isMouse : Bool
  isTouch : Bool
  button : Nat
  altKey : Bool
  ctrlKey : Bool
  metaKey : Bool
  shiftKey : Bool
  clientX : Rat
  clientY : Rat
deriving DecidableEq, Repr

/-- The value model's current value: a single number or a
`[thumb1Value, thumb2Value]` pair for range sliders. -/
inductive SliderValue
  | single (value : Rat)
  | range (thumb1Value thumb2Value : Rat)
deriving DecidableEq, Repr

/-- Everything the `drag` callback closes over: the element refs (geometry or
`none` when the element is unavailable), the presentation props and the state
and value visible at the time the event is processed. -/
structure DragConfig where
  track : Option Rect
  slider1 : Option Rect
  slider2 : Option Rect
  disabled : Bool
  vertical : Bool
  isRtl : Bool
  min : Rat
  max : Rat
  step : Rat
  draggingIndex : Option (Fin 2)
  draggingBy : Option Modality
  value : SliderValue
deriving DecidableEq, Repr

/-- Observable result of a single `drag` call: which platform-event methods
were invoked, which thumb got focus, the resulting `draggingIndex` /
`draggingBy` state and the value passed to `setValue` (`none` when `setValue`
was not called). -/
structure DragOutcome where
  preventDefault : Bool
  stopPropagation : Bool
  focusedThumb : Option (Fin 2)
  newDraggingIndex : Option (Fin 2)
  newDraggingBy : Option Modality
  newValue : Option SliderValue
deriving DecidableEq, Repr

/-- JavaScript `Math.abs` on exact rationals. -/
def mathAbs (a : Rat) : Rat :=
  if a < 0 then -a else a

/-- JavaScript `Math.min` on exact rationals. -/
def mathMin (a b : Rat) : Rat :=
  if a ≤ b then a else b

/-- JavaScript `Math.max` on exact rationals. -/
def mathMax (a b : Rat) : Rat :=
  if a ≤ b then b else a

/-- JavaScript `Math.round` (round half toward positive infinity) on exact
rationals. -/
def mathRound (q : Rat) : Int :=
  Int.floor (q + 1 / 2)

/-- Clamp `value` into `[lower, upper]` (standard clamp; well behaved when
`lower ≤ upper`). -/
def clampQ (value lower upper : Rat) : Rat :=
  mathMin (mathMax value lower) upper

/-- The options record passed to `getDragValue` (the `SliderDragValues` type
from `./utils`). -/
structure SliderDragValues where
  min : Rat
  max : Rat
  step : Rat
  vertical : Bool
  clientX : Rat
  clientY : Rat
  left : Rat
  top : Rat
  height : Rat
  width : Rat
  isRtl : Bool
  minValue : Rat
  maxValue : Rat
deriving DecidableEq, Repr

/-- Modelled from the spec: `getDragValue` from `./utils` is not part of the
source tree (only its caller is).  Spec section 4.2: project the pointer onto
the track's primary axis (`clientX - left` over `width` horizontally,
`clientY - top` over `height` vertically with the vertical axis inverted, and
the horizontal axis flipped when `isRtl`), clamp the fraction to `[0, 1]`, map
it linearly into `[min, max]`, snap to the nearest multiple of `step` relative
to `min` (round-half-up), then clamp again to `[minValue, maxValue]`. -/
def getDragValue (o : SliderDragValues) : Rat :=
  let rawFraction : Rat :=
    if o.vertical then 1 - (o.clientY - o.top) / o.height
    else if o.isRtl then 1 - (o.clientX - o.left) / o.width
    else (o.clientX - o.left) / o.width
  let fraction := clampQ rawFraction 0 1
  let value := o.min + fraction * (o.max - o.min)
  let stepped := o.min + ((mathRound ((value - o.min) / o.step) : Int) : Rat) * o.step
  clampQ stepped o.minValue o.maxValue

/-- Nearest-thumb selection from `drag` (lines 170-178): compare the pointer
coordinate against each thumb's bounding-rect `x` (horizontal) or `y`
(vertical) with a strict less-than. -/
def nearestThumb (vertical : Bool) (clientX clientY : Rat) (s1 s2 : Rect) : Fin 2 :=
  if vertical then
    if mathAbs (clientY - s1.y) < mathAbs (clientY - s2.y) then 0 else 1
  else
    if mathAbs (clientX - s1.x) < mathAbs (clientX - s2.x) then 0 else 1

/-- The early-return guard of `drag` (lines 131-143). -/
def dragRejected (cfg : DragConfig) (event : DragEvent) : Bool :=
  event.altKey || event.ctrlKey || event.metaKey || event.shiftKey ||
    cfg.disabled || cfg.track.isNone || cfg.slider1.isNone ||
    (event.isMouse && event.button != 0) ||
    (!event.isMouse && !event.isTouch)

/-- The outcome of a rejected `drag` call: nothing happens, the state keeps
its previous values. -/
def dragNoChange (cfg : DragConfig) : DragOutcome :=
  { preventDefault := false
    stopPropagation := false
    focusedThumb := none
    newDraggingIndex := cfg.draggingIndex
    newDraggingBy := cfg.draggingBy
    newValue := none }

/-- The thumb-index selection of `drag` (lines 164-184): with a second thumb
present, reuse the already-active index or, when none is active, pick the
thumb nearest to the pointer; single sliders always use thumb 0. -/
def dragIndex (cfg : DragConfig) (event : DragEvent) (slider1 : Rect) : Fin 2 :=
  match cfg.slider2 with
  | some slider2 =>
    match cfg.draggingIndex with
    | none => nearestThumb cfg.vertical event.clientX event.clientY slider1 slider2
    | some i => i
  | none => 0

/-- The `drag` callback of `useSliderControls` (lines 125-228), translated
statement by statement.  State updates (`setDraggingIndex`, `setDraggingBy`,
`setValue`) are reported in the returned `DragOutcome`; `setDraggingIndex` is
only invoked when the index changed, but the resulting state is `some index`
either way, which is what `newDraggingIndex` records. -/
def drag (cfg : DragConfig) (event : DragEvent) : DragOutcome :=
  if dragRejected cfg event then dragNoChange cfg
  else
    match cfg.track, cfg.slider1 with
    | some track, some slider1 =>
      let index : Fin 2 := dragIndex cfg event slider1
      let options : SliderDragValues :=
        { min := cfg.min
          max := cfg.max
          step := cfg.step
          vertical := cfg.vertical
          clientX := event.clientX
          clientY := event.clientY
          left := track.left
          top := track.top
          height := track.height
          width := track.width
          isRtl := cfg.isRtl
          minValue := cfg.min
          maxValue := cfg.max }
      { preventDefault := !event.isTouch
        stopPropagation := true
        focusedThumb := if cfg.draggingIndex ≠ some index then some index else none
        newDraggingIndex := some index
        newDraggingBy := some (if event.isMouse then Modality.mouse else Modality.touch)
        newValue := some
          (match cfg.value with
          | .range thumb1Value thumb2Value =>
            let v := getDragValue
              { options with
                minValue := if index = 0 then cfg.min else thumb1Value
                maxValue := if index = 1 then cfg.max else thumb2Value }
            if index = 0 then .range v thumb2Value else .range thumb1Value v
          | .single _ => .single (getDragValue options)) }
    | _, _ => dragNoChange cfg

/-- The `VALID_KEYS` list of `useSliderControls` (lines 53-62). -/
def VALID_KEYS : List String :=
  ["ArrowDown", "ArrowUp", "ArrowLeft", "ArrowRight", "Home", "End", "PageUp", "PageDown"]

/-- The `VALID_KEYS` list of the variant implementation, where `PageUp` and
`PageDown` are commented out. -/
def VALID_KEYS_variant : List String :=
  ["ArrowDown", "ArrowUp", "ArrowLeft", "ArrowRight", "Home", "End"]

/-- The value model's stepping primitives targeted by `handleKeyDown`. -/
inductive StepOp
  | increment
  | decrement
  | incrementJump
  | decrementJump
  | minimum
  | maximum
deriving DecidableEq, Repr

/-- A keyboard event as observed by `handleKeyDown`.
`currentTargetIsThumb2` models `event.currentTarget === thumb2Ref.current`
(the check used by the main implementation); `targetClosestSliderIsThumb2`
models the variant's check that the nearest `[role="slider"]` ancestor of
`event.target` is the second thumb element. -/
structure KeyboardEvent where
  key : String
  altKey : Bool
  ctrlKey : Bool
  metaKey : Bool
  shiftKey : Bool
  currentTargetIsThumb2 : Bool
  targetClosestSliderIsThumb2 : Bool
deriving DecidableEq, Repr

/-- The configuration `handleKeyDown` closes over: the `disabled` prop and
whether the value model is a range model (`isRangeSlider(controlsRef.current)`). -/
structure KeyConfig where
  disabled : Bool
  isRange : Bool
deriving DecidableEq, Repr

/-- Observable result of a `handleKeyDown` call: the event forwarded to the
caller-supplied `onKeyDown` (always forwarded first, unmodified), whether
`preventDefault` / `stopPropagation` were invoked and which stepping call was
made on which thumb index (`none` when the event was ignored). -/
structure KeyOutcome where
  onKeyDownArg : Option KeyboardEvent
  preventDefault : Bool
  stopPropagation : Bool
  call : Option (StepOp × Fin 2)
deriving DecidableEq, Repr

/-- The `handleKeyDown` callback of `useSliderControls` (lines 319-394),
translated statement by statement.  For a range model the stepping functions
are bound to the index of the focused thumb; for a single model they take no
index, recorded here as index `0`. -/
def handleKeyDown (cfg : KeyConfig) (event : KeyboardEvent) : KeyOutcome :=
  if event.altKey || event.ctrlKey || event.metaKey || event.shiftKey ||
      cfg.disabled || !(VALID_KEYS.contains event.key) then
    { onKeyDownArg := some event
      preventDefault := false
      stopPropagation := false
      call := none }
  else
    { onKeyDownArg := some event
      preventDefault := true
      stopPropagation := true
      call :=
        (if event.key = "ArrowUp" ∨ event.key = "ArrowRight" then some StepOp.increment
         else if event.key = "ArrowDown" ∨ event.key = "ArrowLeft" then some StepOp.decrement
         else if event.key = "Home" then some StepOp.minimum
         else if event.key = "End" then some StepOp.maximum
         else if event.key = "PageUp" then some StepOp.incrementJump
         else if event.key = "PageDown" then some StepOp.decrementJump
         else none).map
          (fun o => (o, if cfg.isRange && event.currentTargetIsThumb2 then 1 else 0)) }

/-- The `handleKeyDown` callback of the variant implementation (part of the
repository outside the main source file), translated statement by statement:
its `VALID_KEYS` omits `PageUp` / `PageDown`, it has no
`incrementJump` / `decrementJump` cases, and it resolves the thumb index from
the nearest `[role="slider"]` ancestor of `event.target`. -/
def handleKeyDownVariant (cfg : KeyConfig) (event : KeyboardEvent) : KeyOutcome :=
  if event.altKey || event.ctrlKey || event.metaKey || event.shiftKey ||
      cfg.disabled || !(VALID_KEYS_variant.contains event.key) then
    { onKeyDownArg := some event
      preventDefault := false
      stopPropagation := false
      call := none }
  else
    { onKeyDownArg := some event
      preventDefault := true
      stopPropagation := true
      call :=
        (if event.key = "ArrowUp" ∨ event.key = "ArrowRight" then some StepOp.increment
         else if event.key = "ArrowDown" ∨ event.key = "ArrowLeft" then some StepOp.decrement
         else if event.key = "Home" then some StepOp.minimum
         else if event.key = "End" then some StepOp.maximum
         else none).map
          (fun o => (o, if cfg.isRange && event.targetClosestSliderIsThumb2 then 1 else 0)) }

/-- Modelled from the spec: the value model's stepping primitives are external
to the source tree (spec sections 4.3 and 6): `increment` / `decrement` move by
`step`, `incrementJump` / `decrementJump` by a larger `jump` amount, `minimum` /
`maximum` snap to `min` / `max`; values stay inside `[min, max]`. -/
structure ValueModel where
  min : Rat
  max : Rat
  step : Rat
  jump : Rat
  value : Rat
deriving DecidableEq, Repr

/-- Modelled from the spec: apply one stepping primitive to a single-thumb
value model. -/
def applyStep (m : ValueModel) (op : StepOp) : ValueModel :=
  match op with
  | .increment => { m with value := clampQ (m.value + m.step) m.min m.max }
  | .decrement => { m with value := clampQ (m.value - m.step) m.min m.max }
  | .incrementJump => { m with value := clampQ (m.value + m.jump) m.min m.max }
  | .decrementJump => { m with value := clampQ (m.value - m.jump) m.min m.max }
  | .minimum => { m with value := m.min }
  | .maximum => { m with value := m.max }

/-- The controller state relevant to the animation timer: the `dragging`
flag, the `draggingIndex` / `draggingBy` state and the list of outstanding
`setTimeout` timers (each entry the remaining milliseconds until it fires). -/
structure TimerState where
  dragging : Bool
  draggingIndex : Option (Fin 2)
  draggingBy : Option Modality
  timers : List Nat
deriving DecidableEq, Repr

/-- Externally visible events driving the timer state machine: a pointer-down
that starts a session on thumb `i` with modality `m`, the passage of `n`
milliseconds, and a pointer-up / touch-end. -/
inductive TimerEvent
  | down (i : Fin 2) (m : Modality)
  | elapse (n : Nat)
  | up
deriving DecidableEq, Repr

/-- The state of a freshly mounted controller. -/
def initialTimerState : TimerState :=
  { dragging := false, draggingIndex := none, draggingBy := none, timers := [] }

/-- One step of the timer state machine, mirroring `useSliderControls`:

* `down i m`: `handleMouseDown` / `handleTouchStart` call `drag` only while
  `draggingBy` is null; `drag` then sets `draggingIndex := some i` and
  `draggingBy := some m`.  The effect on lines 259-276 re-runs because its
  dependencies changed: its cleanup clears the timer the previous run
  scheduled (the previous run scheduled one exactly when the previous
  `draggingIndex` was non-null) and, since the new `draggingIndex` is
  non-null, `window.setTimeout(() => setDragging(true), animationDuration)`
  schedules a fresh timer.
* `elapse n`: `n` milliseconds pass; every outstanding timer whose remaining
  time is at most `n` fires, running `setDragging(true)` (the dependencies of
  both effects do not include `dragging`, so nothing else re-runs); the
  remaining timers keep counting down.
* `up`: the global end listener calls `stop` (lines 229-233), setting
  `dragging := false` and both `draggingIndex` and `draggingBy` to null; the
  effect re-runs, its cleanup `window.clearTimeout` cancels the outstanding
  timer and the body returns without scheduling because both are null. -/
def timerStep (d : Nat) (s : TimerState) (e : TimerEvent) : TimerState :=
  match e with
  | .down i m =>
    if s.draggingBy = none then
      { dragging := s.dragging
        draggingIndex := some i
        draggingBy := some m
        timers := (if s.draggingIndex = none then s.timers else []) ++ [d] }
    else s
  | .elapse n =>
    { s with
      dragging := s.dragging || s.timers.any (fun r => r ≤ n)
      timers := s.timers.filterMap (fun r => if r ≤ n then none else some (r - n)) }
  | .up =>
    if s.draggingBy = none then s
    else
      { dragging := false
        draggingIndex := none
        draggingBy := none
        timers := [] }

/-- Run the timer state machine from the mount state over a list of events. -/
def runTimer (d : Nat) (evs : List TimerEvent) : TimerState :=
  evs.foldl (timerStep d) initialTimerState

/-- The four global listeners the controller can attach to `window`. -/
inductive ListenerKind
  | mousemove
  | mouseup
  | touchmove
  | touchend
deriving DecidableEq, Repr

/-- The listener pair belonging to one modality (lines 240-246). -/
def listenersFor : Modality → List ListenerKind
  | .mouse => [.mousemove, .mouseup]
  | .touch => [.touchmove, .touchend]

/-- The controller state relevant to global listener management, instrumented
with a log of every `addEventListener` / `removeEventListener` call. -/
structure ListenerState where
  draggingBy : Option Modality
  attached : List ListenerKind
  attachLog : List ListenerKind
  detachLog : List ListenerKind
deriving DecidableEq, Repr

/-- The listener state of a freshly mounted controller. -/
def initialListenerState : ListenerState :=
  { draggingBy := none, attached := [], attachLog := [], detachLog := [] }

/-- Remove a modality's listener pair from the attached set
(`window.removeEventListener` is a no-op for handlers that are not
attached). -/
def removeListeners (attached : List ListenerKind) (m : Modality) : List ListenerKind :=
  attached.filter (fun l => !(listenersFor m).contains l)

/-- One re-run of the listener effect (lines 235-257), triggered by a render
in which `draggingBy` (or the `drag` / `stop` callback identity) changed:
first the cleanup of the previous run executes — the previous run registered a
cleanup only when its `draggingBy` was non-null, and that cleanup removes
exactly that modality's pair — then the new body runs, attaching the pair for
the new `draggingBy` unless it is null. -/
def listenerStep (s : ListenerState) (newBy : Option Modality) : ListenerState :=
  let cleaned : List ListenerKind :=
    match s.draggingBy with
    | none => s.attached
    | some m => removeListeners s.attached m
  let cleanedLog : List ListenerKind :=
    match s.draggingBy with
    | none => s.detachLog
    | some m => s.detachLog ++ listenersFor m
  match newBy with
  | none =>
    { draggingBy := none
      attached := cleaned
      attachLog := s.attachLog
      detachLog := cleanedLog }
  | some m =>
    { draggingBy := some m
      attached := cleaned ++ listenersFor m
      attachLog := s.attachLog ++ listenersFor m
      detachLog := cleanedLog }

/-- Run the listener state machine from the mount state over the sequence of
`draggingBy` values taken by successive renders. -/
def runListeners (evs : List (Option Modality)) : ListenerState :=
  evs.foldl listenerStep initialListenerState

/-- Modelled from the spec: `getPercentage` from `@react-md/utils` is not part
of the source tree (only its caller is).  Spec section 4.2: the displayed
percentage derives from `(value - min) / (max - min)`. -/
def getPercentage (min max value : Rat) : Rat :=
  (value - min) / (max - min)

/-- The derived display fields returned by the hook. -/
structure SliderDisplay where
  thumb1Value : Rat
  thumb1Percentage : String
  thumb2Value : Option Rat
  thumb2Percentage : Option String
deriving DecidableEq, Repr

/-- The derivation of the display fields on every render of
`useSliderControls` (lines 396-407).  The `dragging` and `draggingIndex` state
is in scope on every render but the derivation reads only `min`, `max` and the
value model's current value; the template literal interpolating the number
before the percent sign is modelled with `toString`. -/
def deriveDisplay (dragging : Bool) (draggingIndex : Option (Fin 2))
    (min max : Rat) (value : SliderValue) : SliderDisplay :=
  match dragging, draggingIndex, value with
  | _, _, .single v =>
    { thumb1Value := v
      thumb1Percentage := toString (getPercentage min max v * 100) ++ "%"
      thumb2Value := none
      thumb2Percentage := none }
  | _, _, .range v1 v2 =>
    { thumb1Value := v1
      thumb1Percentage := toString (getPercentage min max v1 * 100) ++ "%"
      thumb2Value := some v2
      thumb2Percentage := some (toString (getPercentage min max v2 * 100) ++ "%") }

/-! Helper lemmas about the clamp used by the geometry resolver. -/

theorem clampQ_le_upper (v lo hi : Rat) : clampQ v lo hi ≤ hi := by
  unfold clampQ mathMin mathMax
  split_ifs <;> linarith

theorem lower_le_clampQ (v lo hi : Rat) (h : lo ≤ hi) : lo ≤ clampQ v lo hi := by
  unfold clampQ mathMin mathMax
  split_ifs <;> linarith

theorem drag_newDraggingIndex (cfg : DragConfig) (event : DragEvent) (t s1 : Rect)
    (hr : dragRejected cfg event = false)
    (htr : cfg.track = some t) (hs1 : cfg.slider1 = some s1) :
    (drag cfg event).newDraggingIndex = some (dragIndex cfg event s1) := by
  rw [drag, if_neg (by simp [hr]), htr, hs1]

theorem getDragValue_le_maxValue (o : SliderDragValues) : getDragValue o ≤ o.maxValue :=
  clampQ_le_upper _ _ _

theorem minValue_le_getDragValue (o : SliderDragValues) (h : o.minValue ≤ o.maxValue) :
    o.minValue ≤ getDragValue o :=
  lower_le_clampQ _ _ _ h

end Slider

namespace Slider

/-- C3: a candidate drag event with a modifier key held, or arriving while
disabled, or with the track or primary thumb geometry unavailable, or a mouse
event with a non-primary button, or an event that is neither a mouse nor a
touch event, is rejected silently: the `draggingIndex` / `draggingBy` state
keeps its previous values, `setValue` is not called and neither
`preventDefault` nor `stopPropagation` is invoked. -/
theorem drag_rejects_silently (cfg : DragConfig) (event : DragEvent)
    (h : event.altKey = true ∨ event.ctrlKey = true ∨ event.metaKey = true ∨
      event.shiftKey = true ∨ cfg.disabled = true ∨ cfg.track = none ∨
      cfg.slider1 = none ∨ (event.isMouse = true ∧ event.button ≠ 0) ∨
      (event.isMouse = false ∧ event.isTouch = false)) :
    drag cfg event =
      { preventDefault := false
        stopPropagation := false
        focusedThumb := none
        newDraggingIndex := cfg.draggingIndex
        newDraggingBy := cfg.draggingBy
        newValue := none } := by
  have hr : dragRejected cfg event = true := by
    simp only [dragRejected, Bool.or_eq_true, Bool.and_eq_true, Bool.not_eq_true',
      Option.isNone_iff_eq_none, bne_iff_ne]
    tauto
  simp [drag, hr, dragNoChange]

/-- Witness for `drag_rejects_silently`: a mouse-down with the Shift key held
changes nothing. -/
theorem drag_rejects_silently_witness :
    drag
      { track := some { x := 0, y := 0, left := 0, top := 0, width := 400, height := 20 }
        slider1 := some { x := 100, y := 0, left := 100, top := 0, width := 20, height := 20 }
        slider2 := none
        disabled := false, vertical := false, isRtl := false
        min := 0, max := 100, step := 1
        draggingIndex := none, draggingBy := none, value := .single 40 }
      { isMouse := true, isTouch := false, button := 0
        altKey := false, ctrlKey := false, metaKey := false, shiftKey := true
        clientX := 50, clientY := 0 } =
      { preventDefault := false
        stopPropagation := false
        focusedThumb := none
        newDraggingIndex := none
        newDraggingBy := none
        newValue := none } :=
  drag_rejects_silently _ _ (Or.inr (Or.inr (Or.inr (Or.inl rfl))))

/-- C7: once a drag session has an active thumb, every `drag` call of that
session keeps using that same thumb index — the nearest-thumb selection is
evaluated only while `draggingIndex` is null, so the active thumb is never
reassigned mid-drag, whatever the pointer and thumb geometry, and the value
written by the session updates only that thumb's half of the pair. -/
theorem drag_keeps_active_thumb (cfg : DragConfig) (event : DragEvent) (i : Fin 2)
    (hidx : cfg.draggingIndex = some i) (hs2 : cfg.slider2.isSome = true) :
    (drag cfg event).newDraggingIndex = some i ∧
    (∀ v1 v2 w1 w2, cfg.value = .range v1 v2 →
      (drag cfg event).newValue = some (.range w1 w2) →
      (i = 0 → w2 = v2) ∧ (i = 1 → w1 = v1)) := by
  obtain ⟨s2, hs2'⟩ := Option.isSome_iff_exists.mp hs2
  by_cases hr : dragRejected cfg event = true
  · constructor
    · simp [drag, hr, dragNoChange, hidx]
    · intro v1 v2 w1 w2 hv hnv
      simp [drag, hr, dragNoChange] at hnv
  · have htr : ∃ t, cfg.track = some t := by
      cases htr' : cfg.track
      · exact absurd hr (by simp [dragRejected, htr'])
      · exact ⟨_, rfl⟩
    have hs1 : ∃ s, cfg.slider1 = some s := by
      cases hs1' : cfg.slider1
      · exact absurd hr (by simp [dragRejected, hs1'])
      · exact ⟨_, rfl⟩
    obtain ⟨t, htr⟩ := htr
    obtain ⟨s1, hs1⟩ := hs1
    rw [drag, if_neg hr, htr, hs1]
    constructor
    · simp [dragIndex, hs2', hidx]
    · intro v1 v2 w1 w2 hv hnv
      simp only [dragIndex, hs2', hidx, hv] at hnv
      rcases Fin.exists_fin_two.mp ⟨i, rfl⟩ with h0 | h1
      all_goals {
        first
        | (subst h0; simp at hnv; exact ⟨fun _ => hnv.2.symm, by simp⟩)
        | (subst h1; simp at hnv; exact ⟨by simp, fun _ => hnv.1.symm⟩)
      }

/-- Witness for `drag_keeps_active_thumb`: with thumb 1 active, a move whose
pointer sits directly on thumb 0 still targets thumb 1. -/
theorem drag_keeps_active_thumb_witness :
    (drag
      { track := some { x := 0, y := 0, left := 0, top := 0, width := 400, height := 20 }
        slider1 := some { x := 100, y := 0, left := 100, top := 0, width := 20, height := 20 }
        slider2 := some { x := 300, y := 0, left := 300, top := 0, width := 20, height := 20 }
        disabled := false, vertical := false, isRtl := false
        min := 0, max := 100, step := 1
        draggingIndex := some 1, draggingBy := some .mouse, value := .range 25 75 }
      { isMouse := true, isTouch := false, button := 0
        altKey := false, ctrlKey := false, metaKey := false, shiftKey := false
        clientX := 100, clientY := 0 }).newDraggingIndex = some 1 :=
  (drag_keeps_active_thumb
    { track := some { x := 0, y := 0, left := 0, top := 0, width := 400, height := 20 }
      slider1 := some { x := 100, y := 0, left := 100, top := 0, width := 20, height := 20 }
      slider2 := some { x := 300, y := 0, left := 300, top := 0, width := 20, height := 20 }
      disabled := false, vertical := false, isRtl := false
      min := 0, max := 100, step := 1
      draggingIndex := some 1, draggingBy := some .mouse, value := .range 25 75 }
    { isMouse := true, isTouch := false, button := 0
      altKey := false, ctrlKey := false, metaKey := false, shiftKey := false
      clientX := 100, clientY := 0 } 1 rfl rfl).1

/-- C8: a key-down whose key is unrecognized, or that carries a modifier, or
that arrives while the controller is disabled, produces no stepping call, no
`preventDefault` and no `stopPropagation`, while the caller-supplied
`onKeyDown` handler still receives the unmodified event. -/
theorem handleKeyDown_ignores (cfg : KeyConfig) (event : KeyboardEvent)
    (h : event.altKey = true ∨ event.ctrlKey = true ∨ event.metaKey = true ∨
      event.shiftKey = true ∨ cfg.disabled = true ∨
      VALID_KEYS.contains event.key = false) :
    handleKeyDown cfg event =
      { onKeyDownArg := some event
        preventDefault := false
        stopPropagation := false
        call := none } := by
  have hg : (event.altKey || event.ctrlKey || event.metaKey || event.shiftKey ||
      cfg.disabled || !(VALID_KEYS.contains event.key)) = true := by
    rcases h with h | h | h | h | h | h
    · simp [h]
    · simp [h]
    · simp [h]
    · simp [h]
    · simp [h]
    · have h' : event.key ∉ VALID_KEYS := by simpa using h
      simp [h']
  unfold handleKeyDown
  rw [if_pos hg]

/-- Witness for `handleKeyDown_ignores`: the key `"a"` is passed through to
the caller's handler and otherwise ignored. -/
theorem handleKeyDown_ignores_witness :
    handleKeyDown { disabled := false, isRange := false }
      { key := "a", altKey := false, ctrlKey := false, metaKey := false
        shiftKey := false, currentTargetIsThumb2 := false
        targetClosestSliderIsThumb2 := false } =
      { onKeyDownArg := some
          { key := "a", altKey := false, ctrlKey := false, metaKey := false
            shiftKey := false, currentTargetIsThumb2 := false
            targetClosestSliderIsThumb2 := false }
        preventDefault := false
        stopPropagation := false
        call := none } :=
  handleKeyDown_ignores _ _ (Or.inr (Or.inr (Or.inr (Or.inr (Or.inr (by simp [VALID_KEYS]))))))

/-- C10: on every render, each thumb's displayed percentage equals
`((value - min) / (max - min)) * 100` followed by the percent character,
derived from the value model's current value alone — the `dragging` and
`draggingIndex` state does not influence it, so it holds whether or not a
drag session is active, and for a range slider it holds for both thumbs. -/
theorem display_percentage_formula (dragging : Bool) (draggingIndex : Option (Fin 2))
    (mn mx v1 v2 : Rat) :
    (deriveDisplay dragging draggingIndex mn mx (.single v1)).thumb1Percentage =
      toString ((v1 - mn) / (mx - mn) * 100) ++ "%" ∧
    (deriveDisplay dragging draggingIndex mn mx (.range v1 v2)).thumb1Percentage =
      toString ((v1 - mn) / (mx - mn) * 100) ++ "%" ∧
    (deriveDisplay dragging draggingIndex mn mx (.range v1 v2)).thumb2Percentage =
      some (toString ((v2 - mn) / (mx - mn) * 100) ++ "%") ∧
    deriveDisplay dragging draggingIndex mn mx (.single v1) =
      deriveDisplay false none mn mx (.single v1) ∧
    deriveDisplay dragging draggingIndex mn mx (.range v1 v2) =
      deriveDisplay false none mn mx (.range v1 v2) := by
  refine ⟨?_, ?_, ?_, ?_, ?_⟩ <;> rfl

/-- C9 counterexample: the two keyboard handlers are not behaviorally equal —
on a plain `PageUp` key-down the main implementation invokes `incrementJump`
while the variant implementation ignores the event entirely. -/
theorem keyboard_variant_divergence :
    (handleKeyDown { disabled := false, isRange := false }
      { key := "PageUp", altKey := false, ctrlKey := false, metaKey := false
        shiftKey := false, currentTargetIsThumb2 := false
        targetClosestSliderIsThumb2 := false }).call = some (.incrementJump, 0) ∧
    (handleKeyDownVariant { disabled := false, isRange := false }
      { key := "PageUp", altKey := false, ctrlKey := false, metaKey := false
        shiftKey := false, currentTargetIsThumb2 := false
        targetClosestSliderIsThumb2 := false }).call = none := by
  constructor <;> simp [handleKeyDown, handleKeyDownVariant, VALID_KEYS, VALID_KEYS_variant]

/-- C9 amended: for every keyboard event whose key is neither `PageUp` nor
`PageDown`, and whose current target and nearest slider-role ancestor of
its target identify the same thumb, the two implementations invoke the same
value-model stepping operation on the same thumb index, or both ignore the
event. -/
theorem keyboard_variant_agrees (cfg : KeyConfig) (event : KeyboardEvent)
    (hp : event.key ≠ "PageUp") (hq : event.key ≠ "PageDown")
    (ht : event.currentTargetIsThumb2 = event.targetClosestSliderIsThumb2) :
    (handleKeyDown cfg event).call = (handleKeyDownVariant cfg event).call := by
  have hmm : (VALID_KEYS.contains event.key = true) ↔
      (VALID_KEYS_variant.contains event.key = true) := by
    constructor
    · intro hc
      have hc' : event.key ∈ VALID_KEYS := by simpa using hc
      have hc2 : event.key ∈ VALID_KEYS_variant := by
        simp only [VALID_KEYS, List.mem_cons, List.not_mem_nil, or_false] at hc'
        simp only [VALID_KEYS_variant, List.mem_cons, List.not_mem_nil, or_false]
        tauto
      simpa using hc2
    · intro hc
      have hc' : event.key ∈ VALID_KEYS_variant := by simpa using hc
      have hc2 : event.key ∈ VALID_KEYS := by
        simp only [VALID_KEYS_variant, List.mem_cons, List.not_mem_nil, or_false] at hc'
        simp only [VALID_KEYS, List.mem_cons, List.not_mem_nil, or_false]
        tauto
      simpa using hc2
  have hcontains : VALID_KEYS.contains event.key = VALID_KEYS_variant.contains event.key :=
    Bool.eq_iff_iff.mpr hmm
  by_cases hg : (event.altKey || event.ctrlKey || event.metaKey || event.shiftKey ||
      cfg.disabled || !(VALID_KEYS.contains event.key)) = true
  · have hg' : (event.altKey || event.ctrlKey || event.metaKey || event.shiftKey ||
        cfg.disabled || !(VALID_KEYS_variant.contains event.key)) = true := by
      rw [← hcontains]; exact hg
    unfold handleKeyDown handleKeyDownVariant
    rw [if_pos hg, if_pos hg']
  · have hg' : ¬((event.altKey || event.ctrlKey || event.metaKey || event.shiftKey ||
        cfg.disabled || !(VALID_KEYS_variant.contains event.key)) = true) := by
      rw [← hcontains]; exact hg
    have hf : (event.altKey || event.ctrlKey || event.metaKey || event.shiftKey ||
        cfg.disabled || !(VALID_KEYS.contains event.key)) = false := eq_false_of_ne_true hg
    have hmem : event.key ∈ VALID_KEYS := by
      rcases Bool.or_eq_false_iff.mp hf with ⟨-, h2⟩
      simpa using h2
    unfold handleKeyDown handleKeyDownVariant
    rw [if_neg hg, if_neg hg']
    simp only [VALID_KEYS, List.mem_cons, List.not_mem_nil, or_false] at hmem
    rcases hmem with h | h | h | h | h | h | h | h <;>
      first
        | (exact absurd h hp)
        | (exact absurd h hq)
        | (rw [h]; simp [ht])

/-- Witness for `keyboard_variant_agrees`: both handlers decrement thumb 0 on
a plain `ArrowDown`. -/
theorem keyboard_variant_agrees_witness :
    (handleKeyDown { disabled := false, isRange := false }
      { key := "ArrowDown", altKey := false, ctrlKey := false, metaKey := false
        shiftKey := false, currentTargetIsThumb2 := false
        targetClosestSliderIsThumb2 := false }).call =
    (handleKeyDownVariant { disabled := false, isRange := false }
      { key := "ArrowDown", altKey := false, ctrlKey := false, metaKey := false
        shiftKey := false, currentTargetIsThumb2 := false
        targetClosestSliderIsThumb2 := false }).call :=
  keyboard_variant_agrees _ _ (by decide) (by decide) rfl

/-- C4: while enabled and with no modifier held, each recognized key invokes
exactly one corresponding value-model stepping call on the focused thumb —
ArrowUp / ArrowRight increment, ArrowDown / ArrowLeft decrement, Home calls
minimum, End calls maximum, PageUp calls incrementJump, PageDown calls
decrementJump — every handled key press calls both `preventDefault` and
`stopPropagation`, and the `maximum` / `minimum` operations set the value to
`max` / `min` regardless of the current value. -/
theorem handleKeyDown_recognized_keys (cfg : KeyConfig) (event : KeyboardEvent)
    (ha : event.altKey = false) (hc : event.ctrlKey = false)
    (hm : event.metaKey = false) (hs : event.shiftKey = false)
    (hd : cfg.disabled = false) (hk : event.key ∈ VALID_KEYS) :
    (handleKeyDown cfg event).preventDefault = true ∧
    (handleKeyDown cfg event).stopPropagation = true ∧
    ((event.key = "ArrowUp" ∨ event.key = "ArrowRight") ↔
      (handleKeyDown cfg event).call =
        some (.increment, if cfg.isRange && event.currentTargetIsThumb2 then 1 else 0)) ∧
    ((event.key = "ArrowDown" ∨ event.key = "ArrowLeft") ↔
      (handleKeyDown cfg event).call =
        some (.decrement, if cfg.isRange && event.currentTargetIsThumb2 then 1 else 0)) ∧
    (event.key = "Home" ↔
      (handleKeyDown cfg event).call =
        some (.minimum, if cfg.isRange && event.currentTargetIsThumb2 then 1 else 0)) ∧
    (event.key = "End" ↔
      (handleKeyDown cfg event).call =
        some (.maximum, if cfg.isRange && event.currentTargetIsThumb2 then 1 else 0)) ∧
    (event.key = "PageUp" ↔
      (handleKeyDown cfg event).call =
        some (.incrementJump, if cfg.isRange && event.currentTargetIsThumb2 then 1 else 0)) ∧
    (event.key = "PageDown" ↔
      (handleKeyDown cfg event).call =
        some (.decrementJump, if cfg.isRange && event.currentTargetIsThumb2 then 1 else 0)) ∧
    (∀ m : ValueModel,
      (applyStep m .maximum).value = m.max ∧ (applyStep m .minimum).value = m.min) := by
  have hg : ¬((event.altKey || event.ctrlKey || event.metaKey || event.shiftKey ||
      cfg.disabled || !(VALID_KEYS.contains event.key)) = true) := by
    simp [ha, hc, hm, hs, hd, hk]
  unfold handleKeyDown
  rw [if_neg hg]
  simp only [VALID_KEYS, List.mem_cons, List.not_mem_nil, or_false] at hk
  have happ : ∀ m : ValueModel,
      (applyStep m .maximum).value = m.max ∧ (applyStep m .minimum).value = m.min := by
    intro m
    simp [applyStep]
  rcases hk with h | h | h | h | h | h | h | h <;> rw [h] <;>
    exact ⟨rfl, rfl, by simp, by simp, by simp, by simp, by simp, by simp, happ⟩

/-- Witness for `handleKeyDown_recognized_keys`: on a plain `End` key-down the
handler suppresses the platform default and calls `maximum` for thumb 0, and
`maximum` snaps a concrete value model to its `max`. -/
theorem handleKeyDown_recognized_keys_witness :
    (handleKeyDown { disabled := false, isRange := false }
      { key := "End", altKey := false, ctrlKey := false, metaKey := false
        shiftKey := false, currentTargetIsThumb2 := false
        targetClosestSliderIsThumb2 := false }).preventDefault = true ∧
    (handleKeyDown { disabled := false, isRange := false }
      { key := "End", altKey := false, ctrlKey := false, metaKey := false
        shiftKey := false, currentTargetIsThumb2 := false
        targetClosestSliderIsThumb2 := false }).call = some (.maximum, 0) ∧
    (applyStep { min := 0, max := 10, step := 1, jump := 2, value := 3 } .maximum).value = 10 := by
  have h := handleKeyDown_recognized_keys { disabled := false, isRange := false }
    { key := "End", altKey := false, ctrlKey := false, metaKey := false
      shiftKey := false, currentTargetIsThumb2 := false
      targetClosestSliderIsThumb2 := false }
    rfl rfl rfl rfl rfl (by simp [VALID_KEYS])
  refine ⟨h.1, ?_, ?_⟩
  · simpa using h.2.2.2.2.2.1.mp rfl
  · simpa using
      (h.2.2.2.2.2.2.2.2 { min := 0, max := 10, step := 1, jump := 2, value := 3 }).1

/-- C1 counterexample: with two thumbs whose bounding rectangles sit at
`x = 100` and `x = 300`, a pointer-down at exactly `x = 200` — equidistant
from both — selects thumb 1, not thumb 0 as the claim states: the strict
less-than in the nearest-thumb comparison resolves ties to thumb 1. -/
theorem drag_tie_selects_thumb1 :
    (drag
      { track := some { x := 0, y := 0, left := 0, top := 0, width := 400, height := 20 }
        slider1 := some { x := 100, y := 0, left := 100, top := 0, width := 20, height := 20 }
        slider2 := some { x := 300, y := 0, left := 300, top := 0, width := 20, height := 20 }
        disabled := false, vertical := false, isRtl := false
        min := 0, max := 100, step := 1
        draggingIndex := none, draggingBy := none, value := .range 25 75 }
      { isMouse := true, isTouch := false, button := 0
        altKey := false, ctrlKey := false, metaKey := false, shiftKey := false
        clientX := 200, clientY := 0 }).newDraggingIndex = some 1 := by
  norm_num [drag, dragRejected, dragIndex, nearestThumb, mathAbs]

/-- C1 amended: when no thumb is active, an accepted pointer-down on a
two-thumb slider selects the thumb whose bounding-rectangle coordinate
(`x` horizontally, `y` vertically) is strictly closer to the pointer's
corresponding coordinate, and every exactly equidistant pointer position
selects thumb 1. -/
theorem drag_selects_nearest_thumb (cfg : DragConfig) (event : DragEvent) (s1 s2 : Rect)
    (hrej : dragRejected cfg event = false)
    (hidx : cfg.draggingIndex = none)
    (h1 : cfg.slider1 = some s1) (h2 : cfg.slider2 = some s2) :
    (cfg.vertical = false →
      (mathAbs (event.clientX - s1.x) < mathAbs (event.clientX - s2.x) →
        (drag cfg event).newDraggingIndex = some 0) ∧
      (mathAbs (event.clientX - s2.x) < mathAbs (event.clientX - s1.x) →
        (drag cfg event).newDraggingIndex = some 1) ∧
      (mathAbs (event.clientX - s1.x) = mathAbs (event.clientX - s2.x) →
        (drag cfg event).newDraggingIndex = some 1)) ∧
    (cfg.vertical = true →
      (mathAbs (event.clientY - s1.y) < mathAbs (event.clientY - s2.y) →
        (drag cfg event).newDraggingIndex = some 0) ∧
      (mathAbs (event.clientY - s2.y) < mathAbs (event.clientY - s1.y) →
        (drag cfg event).newDraggingIndex = some 1) ∧
      (mathAbs (event.clientY - s1.y) = mathAbs (event.clientY - s2.y) →
        (drag cfg event).newDraggingIndex = some 1)) := by
  have htr : ∃ t, cfg.track = some t := by
    cases htr' : cfg.track
    · exact absurd hrej (by simp [dragRejected, htr'])
    · exact ⟨_, rfl⟩
  obtain ⟨t, htr⟩ := htr
  rw [drag, if_neg (by simp [hrej]), htr, h1]
  simp only [dragIndex, h2, hidx]
  constructor
  · intro hv
    refine ⟨fun hcmp => ?_, fun hcmp => ?_, fun hcmp => ?_⟩
    · simp [nearestThumb, hv, hcmp]
    · simp only [nearestThumb, hv, Bool.false_eq_true, if_false, if_neg (asymm hcmp)]
    · simp [nearestThumb, hv, hcmp]
  · intro hv
    refine ⟨fun hcmp => ?_, fun hcmp => ?_, fun hcmp => ?_⟩
    · simp [nearestThumb, hv, hcmp]
    · simp only [nearestThumb, hv, if_true, if_neg (asymm hcmp)]
    · simp [nearestThumb, hv, hcmp]

/-- Witness for `drag_selects_nearest_thumb`: a pointer-down at `x = 150`
between thumbs at `x = 100` and `x = 300` selects thumb 0. -/
theorem drag_selects_nearest_thumb_witness :
    (drag
      { track := some { x := 0, y := 0, left := 0, top := 0, width := 400, height := 20 }
        slider1 := some { x := 100, y := 0, left := 100, top := 0, width := 20, height := 20 }
        slider2 := some { x := 300, y := 0, left := 300, top := 0, width := 20, height := 20 }
        disabled := false, vertical := false, isRtl := false
        min := 0, max := 100, step := 1
        draggingIndex := none, draggingBy := none, value := .range 25 75 }
      { isMouse := true, isTouch := false, button := 0
        altKey := false, ctrlKey := false, metaKey := false, shiftKey := false
        clientX := 150, clientY := 0 }).newDraggingIndex = some 0 :=
  ((drag_selects_nearest_thumb
    { track := some { x := 0, y := 0, left := 0, top := 0, width := 400, height := 20 }
      slider1 := some { x := 100, y := 0, left := 100, top := 0, width := 20, height := 20 }
      slider2 := some { x := 300, y := 0, left := 300, top := 0, width := 20, height := 20 }
      disabled := false, vertical := false, isRtl := false
      min := 0, max := 100, step := 1
      draggingIndex := none, draggingBy := none, value := .range 25 75 }
    { isMouse := true, isTouch := false, button := 0
      altKey := false, ctrlKey := false, metaKey := false, shiftKey := false
      clientX := 150, clientY := 0 }
    { x := 100, y := 0, left := 100, top := 0, width := 20, height := 20 }
    { x := 300, y := 0, left := 300, top := 0, width := 20, height := 20 }
    rfl rfl rfl rfl).1 rfl).1 (by norm_num [mathAbs])

/-- C2: every range-slider drag update clamps the moved value to the active
thumb's effective sub-range — `[min, thumb 1's value]` when thumb 0 is
active, `[thumb 0's value, max]` when thumb 1 is active — and the resulting
pair keeps the inactive sibling's component exactly equal to its previous
value. -/
theorem drag_clamps_to_sibling (cfg : DragConfig) (event : DragEvent) (v1 v2 w1 w2 : Rat)
    (hv : cfg.value = .range v1 v2) (hlo : cfg.min ≤ v2) (hhi : v1 ≤ cfg.max)
    (hnv : (drag cfg event).newValue = some (.range w1 w2)) :
    ((drag cfg event).newDraggingIndex = some 0 → w2 = v2 ∧ cfg.min ≤ w1 ∧ w1 ≤ v2) ∧
    ((drag cfg event).newDraggingIndex = some 1 → w1 = v1 ∧ v1 ≤ w2 ∧ w2 ≤ cfg.max) := by
  by_cases hr : dragRejected cfg event = true
  · simp [drag, hr, dragNoChange] at hnv
  · have htr : ∃ t, cfg.track = some t := by
      cases htr' : cfg.track
      · exact absurd hr (by simp [dragRejected, htr'])
      · exact ⟨_, rfl⟩
    have hs1 : ∃ s, cfg.slider1 = some s := by
      cases hs1' : cfg.slider1
      · exact absurd hr (by simp [dragRejected, hs1'])
      · exact ⟨_, rfl⟩
    obtain ⟨t, htr⟩ := htr
    obtain ⟨s1, hs1⟩ := hs1
    have hIdx := drag_newDraggingIndex cfg event t s1 (eq_false_of_ne_true hr) htr hs1
    rw [drag, if_neg hr, htr, hs1] at hnv
    simp only [hv] at hnv
    rcases Fin.exists_fin_two.mp ⟨dragIndex cfg event s1, rfl⟩ with h0 | h1
    · rw [h0] at hnv
      simp only [reduceIte, Option.some.injEq, SliderValue.range.injEq,
        Fin.zero_eq_one_iff, Nat.succ_succ_ne_one, if_false] at hnv
      obtain ⟨hw1, hw2⟩ := hnv
      constructor
      · intro _
        refine ⟨hw2.symm, ?_, ?_⟩
        · rw [← hw1]
          exact minValue_le_getDragValue _ hlo
        · rw [← hw1]
          exact getDragValue_le_maxValue _
      · intro hcon
        rw [hIdx, h0] at hcon
        exact absurd (Option.some.inj hcon) (by decide)
    · rw [h1] at hnv
      simp only [reduceIte, Option.some.injEq, SliderValue.range.injEq,
        Fin.one_eq_zero_iff, Nat.succ_succ_ne_one, if_false] at hnv
      obtain ⟨hw1, hw2⟩ := hnv
      constructor
      · intro hcon
        rw [hIdx, h1] at hcon
        exact absurd (Option.some.inj hcon) (by decide)
      · intro _
        refine ⟨hw1.symm, ?_, ?_⟩
        · rw [← hw2]
          exact minValue_le_getDragValue _ hhi
        · rw [← hw2]
          exact getDragValue_le_maxValue _

/-- Witness for `drag_clamps_to_sibling`: with thumbs at `(20, 80)` over
`[0, 100]`, dragging thumb 0 to a pointer position implying value `90`
clamps the result to `80` and leaves thumb 1 at `80`. -/
theorem drag_clamps_to_sibling_witness :
    (drag
      { track := some { x := 0, y := 0, left := 0, top := 0, width := 100, height := 20 }
        slider1 := some { x := 20, y := 0, left := 20, top := 0, width := 4, height := 20 }
        slider2 := some { x := 80, y := 0, left := 80, top := 0, width := 4, height := 20 }
        disabled := false, vertical := false, isRtl := false
        min := 0, max := 100, step := 1
        draggingIndex := some 0, draggingBy := some .mouse, value := .range 20 80 }
      { isMouse := true, isTouch := false, button := 0
        altKey := false, ctrlKey := false, metaKey := false, shiftKey := false
        clientX := 90, clientY := 0 }).newValue = some (.range 80 80) ∧
    ((80 : Rat) = 80 ∧ (0 : Rat) ≤ 80 ∧ (80 : Rat) ≤ 80) := by
  have hnv : (drag
      { track := some { x := 0, y := 0, left := 0, top := 0, width := 100, height := 20 }
        slider1 := some { x := 20, y := 0, left := 20, top := 0, width := 4, height := 20 }
        slider2 := some { x := 80, y := 0, left := 80, top := 0, width := 4, height := 20 }
        disabled := false, vertical := false, isRtl := false
        min := 0, max := 100, step := 1
        draggingIndex := some 0, draggingBy := some .mouse, value := .range 20 80 }
      { isMouse := true, isTouch := false, button := 0
        altKey := false, ctrlKey := false, metaKey := false, shiftKey := false
        clientX := 90, clientY := 0 }).newValue = some (.range 80 80) := by
    norm_num [drag, dragRejected, dragIndex, getDragValue, clampQ, mathMin, mathMax, mathRound]
  refine ⟨hnv, (drag_clamps_to_sibling _ _ 20 80 80 80 rfl (by norm_num) (by norm_num) hnv).1 ?_⟩
  norm_num [drag, dragRejected, dragIndex]

end Slider

namespace Slider

/-- The invariant maintained by the timer state machine: at most one timer is
outstanding, an idle controller has no outstanding timer, and `draggingBy`
and `draggingIndex` are null together. -/
def timerInvariant (s : TimerState) : Prop :=
  s.timers.length ≤ 1 ∧ (s.draggingBy = none → s.timers = []) ∧
    (s.draggingBy = none ↔ s.draggingIndex = none)

theorem timerInvariant_initial : timerInvariant initialTimerState := by
  refine ⟨by simp [initialTimerState], by simp [initialTimerState], by simp [initialTimerState]⟩

theorem timerInvariant_step (d : Nat) (s : TimerState) (e : TimerEvent)
    (h : timerInvariant s) : timerInvariant (timerStep d s e) := by
  obtain ⟨h1, h2, h3⟩ := h
  cases e with
  | down i m =>
    by_cases hby : s.draggingBy = none
    · have hidx : s.draggingIndex = none := h3.mp hby
      simp [timerStep, hby, timerInvariant, hidx, h2 hby]
    · have hsame : timerStep d s (.down i m) = s := by simp [timerStep, hby]
      rw [hsame]
      exact ⟨h1, h2, h3⟩
  | elapse n =>
    refine ⟨?_, ?_, ?_⟩
    · simpa [timerStep] using le_trans (List.length_filterMap_le _ _) h1
    · intro hby
      have hby' : s.draggingBy = none := by simpa [timerStep] using hby
      simp [timerStep, h2 hby']
    · simpa [timerStep] using h3
  | up =>
    by_cases hby : s.draggingBy = none
    · have hsame : timerStep d s .up = s := by simp [timerStep, hby]
      rw [hsame]
      exact ⟨h1, h2, h3⟩
    · simp [timerStep, hby, timerInvariant]

theorem timerInvariant_run (d : Nat) (evs : List TimerEvent) :
    timerInvariant (runTimer d evs) := by
  suffices h : ∀ s, timerInvariant s → timerInvariant (evs.foldl (timerStep d) s) from
    h _ timerInvariant_initial
  induction evs with
  | nil => exact fun s hs => hs
  | cons e es ih => exact fun s hs => ih _ (timerInvariant_step d s e hs)

/-- C5: a pointer-down followed by a pointer-up before `d` milliseconds never
sets `dragging`; a session surviving the full delay sets `dragging` and it
falls back to `false` when the end event is processed; and in every reachable
state at most one timer is outstanding and an ended session has no
outstanding timer (so no timer can fire after its owning session ended). -/
theorem dragging_flag_timer (d : Nat) (i : Fin 2) (m : Modality) :
    (∀ t, t < d →
      (runTimer d [.down i m]).dragging = false ∧
      (runTimer d [.down i m, .elapse t]).dragging = false ∧
      (runTimer d [.down i m, .elapse t, .up]).dragging = false) ∧
    (∀ t, d ≤ t →
      (runTimer d [.down i m, .elapse t]).dragging = true ∧
      (runTimer d [.down i m, .elapse t, .up]).dragging = false) ∧
    (∀ evs, (runTimer d evs).timers.length ≤ 1 ∧
      ((runTimer d evs).draggingBy = none → (runTimer d evs).timers = [])) := by
  refine ⟨?_, ?_, ?_⟩
  · intro t ht
    have hnot : ¬(d ≤ t) := by omega
    refine ⟨?_, ?_, ?_⟩ <;>
      simp [runTimer, timerStep, initialTimerState, hnot]
  · intro t ht
    refine ⟨?_, ?_⟩ <;>
      simp [runTimer, timerStep, initialTimerState, ht]
  · intro evs
    exact ⟨(timerInvariant_run d evs).1, (timerInvariant_run d evs).2.1⟩

/-- Witness for `dragging_flag_timer`: with a 200 ms delay, a 100 ms
click never shows `dragging`, while a 250 ms hold does until released. -/
theorem dragging_flag_timer_witness :
    ((100 : Nat) < 200 ∧
      (runTimer 200 [.down 0 .mouse, .elapse 100, .up]).dragging = false) ∧
    ((200 : Nat) ≤ 250 ∧
      (runTimer 200 [.down 0 .mouse, .elapse 250]).dragging = true ∧
      (runTimer 200 [.down 0 .mouse, .elapse 250, .up]).dragging = false) :=
  ⟨⟨by omega, ((dragging_flag_timer 200 0 .mouse).1 100 (by omega)).2.2⟩,
   ⟨by omega, (dragging_flag_timer 200 0 .mouse).2.1 250 (by omega)⟩⟩

/-- The invariant maintained by the listener state machine: the attached
global listeners are exactly the pair of the active modality (none when
idle), and per listener the number of attach calls equals the number of
detach calls plus one when it is currently attached. -/
def listenerInvariant (s : ListenerState) : Prop :=
  (s.attached = match s.draggingBy with
    | none => []
    | some m => listenersFor m) ∧
  (∀ l : ListenerKind, s.attachLog.count l = s.detachLog.count l + s.attached.count l)

theorem listenerInvariant_initial : listenerInvariant initialListenerState := by
  refine ⟨rfl, fun l => rfl⟩

theorem removeListeners_self (m : Modality) :
    removeListeners (listenersFor m) m = [] := by
  cases m <;> rfl

theorem listenerInvariant_step (s : ListenerState) (newBy : Option Modality)
    (h : listenerInvariant s) : listenerInvariant (listenerStep s newBy) := by
  obtain ⟨h1, h2⟩ := h
  cases hby : s.draggingBy with
  | none =>
    have hatt : s.attached = [] := by rw [h1, hby]
    cases newBy with
    | none =>
      refine ⟨?_, ?_⟩
      · simp [listenerStep, hby, hatt]
      · intro l
        simpa [listenerStep, hby, hatt] using by simpa [hatt] using h2 l
    | some m' =>
      refine ⟨?_, ?_⟩
      · simp [listenerStep, hby, hatt]
      · intro l
        have := h2 l
        rw [hatt] at this
        simp [listenerStep, hby, hatt, List.count_append, this]
  | some m =>
    have hatt : s.attached = listenersFor m := by rw [h1, hby]
    have hcleaned : removeListeners s.attached m = [] := by
      rw [hatt]
      exact removeListeners_self m
    cases newBy with
    | none =>
      refine ⟨?_, ?_⟩
      · simp [listenerStep, hby, hcleaned]
      · intro l
        have := h2 l
        rw [hatt] at this
        simp [listenerStep, hby, hcleaned, removeListeners_self, hatt, List.count_append, this]
    | some m' =>
      refine ⟨?_, ?_⟩
      · simp [listenerStep, hby, hcleaned]
      · intro l
        have := h2 l
        rw [hatt] at this
        simp [listenerStep, hby, hcleaned, removeListeners_self, hatt, List.count_append, this]

theorem listenerInvariant_run (evs : List (Option Modality)) :
    listenerInvariant (runListeners evs) := by
  suffices h : ∀ s, listenerInvariant s → listenerInvariant (evs.foldl listenerStep s) from
    h _ listenerInvariant_initial
  induction evs with
  | nil => exact fun s hs => hs
  | cons e es ih => exact fun s hs => ih _ (listenerInvariant_step s e hs)

/-- C6: in every reachable controller state the attached global listeners are
exactly the move/end pair of the active modality — none while idle, never a
mix of both modalities' pairs — and attach/detach calls balance: per listener
the attach count equals the detach count plus its current attachment, so a
completed drag cycle (back to idle) leaves zero net handlers. -/
theorem listener_discipline (evs : List (Option Modality)) :
    ((runListeners evs).attached = match (runListeners evs).draggingBy with
      | none => []
      | some m => listenersFor m) ∧
    ((runListeners evs).attached ≠ [] ↔ (runListeners evs).draggingBy ≠ none) ∧
    (¬(ListenerKind.mousemove ∈ (runListeners evs).attached ∧
        ListenerKind.touchmove ∈ (runListeners evs).attached)) ∧
    (∀ l : ListenerKind, (runListeners evs).attachLog.count l =
      (runListeners evs).detachLog.count l + (runListeners evs).attached.count l) ∧
    ((runListeners evs).draggingBy = none →
      ∀ l : ListenerKind, (runListeners evs).attachLog.count l =
        (runListeners evs).detachLog.count l) := by
  obtain ⟨h1, h2⟩ := listenerInvariant_run evs
  refine ⟨h1, ?_, ?_, h2, ?_⟩
  · rw [h1]
    cases hby : (runListeners evs).draggingBy with
    | none => simp
    | some m => cases m <;> simp [listenersFor]
  · rw [h1]
    cases hby : (runListeners evs).draggingBy with
    | none => simp
    | some m => cases m <;> simp [listenersFor]
  · intro hby l
    have := h2 l
    rw [h1, hby] at this
    simpa using this

/-- Witness for `listener_discipline`: after a full mouse drag cycle
(attach on mouse-down, detach on mouse-up) the `mousemove` attach and detach
call counts are equal. -/
theorem listener_discipline_witness :
    (runListeners [some .mouse, none]).attachLog.count ListenerKind.mousemove =
      (runListeners [some .mouse, none]).detachLog.count ListenerKind.mousemove :=
  (listener_discipline [some .mouse, none]).2.2.2.2 rfl ListenerKind.mousemove

end Slider
